import Mathlib

/-!
Shallow embedding of the SyntheticPairEngine core (market-data model,
mispricing detectors, pricing models, arbitrage engine) and proofs about it.

Conventions of the embedding:
* C++ `double` fields are modelled as `ℚ` (the claims are about the exact
  arithmetic the code performs, not floating-point rounding).
* `std::chrono::high_resolution_clock::time_point` is modelled as `ℤ`
  (nanosecond ticks since the epoch); a default-constructed time point is 0.
* `std::map` members that the embedded functions iterate or look up are
  modelled as association lists (`List (key × value)`); `operator[]`
  insert-or-assign and `find` are modelled accordingly.
* `std::queue` is a `List` (front = head, push = append at the back).
* Member functions are pure Lean functions taking the relevant member state
  and an explicit `now : ℤ` wherever the source reads the clock.
* Callback invocation is observed through an explicit list of fired events
  carried in the state; a function that never touches its callback leaves
  that list unchanged.
-/

namespace SPE

/-- Timestamps: high_resolution_clock ticks (nanoseconds) as integers. -/
abbrev Timestamp := ℤ

abbrev InstrumentId := String

abbrev Price := ℚ

abbrev Volume := ℚ

/-- market_data::Side. -/
inductive Side where
  | BID
  | ASK
deriving DecidableEq

/-- market_data::Quote (instrument id, bid/ask prices and sizes, timestamp,
sequence number). -/
structure Quote where
  instrument_id : InstrumentId := ""
  bid_price : Price := 0
  ask_price : Price := 0
  bid_size : Volume := 0
  ask_size : Volume := 0
  timestamp : Timestamp := 0
  sequence_number : ℕ := 0
deriving DecidableEq

/-- market_data::MarketSnapshot. The `recent_trades` and `depth` maps are
omitted: no function embedded here reads them. `quotes` is the
`std::map<InstrumentId, Quote>` as an association list. -/
structure MarketSnapshot where
  quotes : List (InstrumentId × Quote) := []
  snapshot_time : Timestamp := 0
deriving DecidableEq

/-- pricing::FundingRate; `frequency` is a count of hours (default 8). -/
structure FundingRate where
  instrument_id : InstrumentId := ""
  rate : ℚ := 0
  timestamp : Timestamp := 0
  frequency_hours : ℕ := 8
deriving DecidableEq

/-- pricing::VolatilitySurface's `vol_surface` member:
`std::map<std::pair<double,double>, double>` keyed by (strike, time_to_expiry),
as an association list. -/
abbrev VolSurfaceMap := List ((ℚ × ℚ) × ℚ)

/-- VolatilitySurface::interpolate_volatility: exact-key lookup in
`vol_surface`; returns the stored value when the key is present and the
default volatility 0.2 otherwise. -/
def VolatilitySurface.interpolate_volatility (vol_surface : VolSurfaceMap)
    (strike time_to_expiry : ℚ) : ℚ :=
  match vol_surface.find? (fun e => decide (e.1 = (strike, time_to_expiry))) with
  | some e => e.2
  | none => 0.2

/-- VolatilitySurface::update_point:
`vol_surface[{strike, tte}] = volatility` — insert-or-assign on the map,
modelled as prepending the new binding and dropping any previous binding of
the same key. -/
def VolatilitySurface.update_point (vol_surface : VolSurfaceMap)
    (strike time_to_expiry volatility : ℚ) : VolSurfaceMap :=
  ((strike, time_to_expiry), volatility) ::
    vol_surface.filter (fun e => !decide (e.1 = (strike, time_to_expiry)))

/-- mispricing::MispricingType. -/
inductive MispricingType where
  | STATISTICAL_ARBITRAGE
  | CROSS_CURRENCY_TRIANGULAR
  | MEAN_REVERSION
  | VOLATILITY_ARBITRAGE
  | SPREAD_ANOMALY
  | SPOT_VS_SYNTHETIC_DERIVATIVE
  | CROSS_EXCHANGE_ARBITRAGE
  | REAL_TIME_PRICE_DISCREPANCY
deriving DecidableEq

/-- mispricing::MispricingSeverity. -/
inductive MispricingSeverity where
  | LOW
  | MEDIUM
  | HIGH
  | CRITICAL
deriving DecidableEq

/-- mispricing::MispricingOpportunity. The C++ default constructor zeroes
every numeric field and sets `detection_time` to the clock reading `now`;
`expiry_time` is a default-constructed time point (the epoch, modelled as 0).
`type` and `severity` are left uninitialized by the C++ default constructor;
the Lean defaults below are placeholders for those indeterminate values and
no theorem relies on them for a default-constructed value. -/
structure MispricingOpportunity where
  target_instrument : InstrumentId := ""
  component_instruments : List InstrumentId := []
  type : MispricingType := .STATISTICAL_ARBITRAGE
  severity : MispricingSeverity := .LOW
  market_price : Price := 0
  theoretical_price : Price := 0
  deviation_percentage : ℚ := 0
  z_score : ℚ := 0
  confidence_level : ℚ := 0
  expected_profit : ℚ := 0
  max_loss : ℚ := 0
  weights : List ℚ := []
  detection_time : Timestamp := 0
  expiry_time : Timestamp := 0
  value_at_risk : ℚ := 0
  expected_shortfall : ℚ := 0
  sharpe_ratio : ℚ := 0
deriving DecidableEq

/-- mispricing::DetectionParameters with the defaults of the header. -/
structure DetectionParameters where
  min_deviation_threshold : ℚ := 0.005
  min_z_score : ℚ := 2.0
  min_confidence_level : ℚ := 0.8
  max_spread_ratio : ℚ := 0.02
  min_observation_window : ℕ := 50
  volatility_threshold : ℚ := 0.15
  liquidity_threshold : ℚ := 1000.0
  max_opportunity_duration_min : ℕ := 30
deriving DecidableEq

/-- The default-constructed `DetectionParameters{}`. -/
def DetectionParameters.defaults : DetectionParameters := {}

/-- StatisticalMispricingDetector::is_significant_deviation:
`|deviation| > min_deviation_threshold && |z_score| > min_z_score &&
confidence > min_confidence_level`. -/
def StatisticalMispricingDetector.is_significant_deviation
    (params : DetectionParameters) (deviation z_score confidence : ℚ) : Bool :=
  decide (|deviation| > params.min_deviation_threshold) &&
  decide (|z_score| > params.min_z_score) &&
  decide (confidence > params.min_confidence_level)

/-- Insert-or-assign on a `std::map` modelled as an association list:
`m[k]` default-constructs a value when the key is absent, and the update
function is applied to the mapped value (used for
`update_price_history` / the volatility history). -/
def mapUpdate {α : Type} (l : List (InstrumentId × α)) (k : InstrumentId)
    (dflt : α) (f : α → α) : List (InstrumentId × α) :=
  match l with
  | [] => [(k, f dflt)]
  | (k', v) :: rest =>
      if k' = k then (k, f v) :: rest else (k', v) :: mapUpdate rest k dflt f

/-- StatisticalMispricingDetector::update_price_history (the per-instrument
queue update): push the quote, then pop the front when the size exceeds
`min_observation_window * 2`. -/
def StatisticalMispricingDetector.update_price_history
    (params : DetectionParameters) (history : List Quote) (quote : Quote) :
    List Quote :=
  let h := history ++ [quote]
  if h.length > params.min_observation_window * 2 then h.tail else h

/-- `queue.back().bid_price` of a quote queue. `back()` on an empty queue is
undefined behaviour in the source; the emitting code only reaches it with
`size ≥ min_observation_window`, so the 0 fallback is unreachable for any
positive window. -/
def backBidPrice (history : List Quote) : ℚ :=
  match history.getLast? with
  | some q => q.bid_price
  | none => 0

/-- The mutable state of a StatisticalMispricingDetector:
`price_history_`, `active_opportunities_`, and the list of opportunities the
`expiry_callback_` has been invoked on (the observable callback trace). -/
structure StatDetectorState where
  price_history : List (InstrumentId × List Quote) := []
  active_opportunities : List MispricingOpportunity := []
  fired_expiry_callbacks : List MispricingOpportunity := []
deriving DecidableEq

/-- StatisticalMispricingDetector::cleanup_expired_opportunities: erase from
`active_opportunities_` every entry with `now > opp.expiry_time`. The body
never references `expiry_callback_`, so the callback trace is untouched. -/
def StatisticalMispricingDetector.cleanup_expired_opportunities
    (st : StatDetectorState) (now : Timestamp) : StatDetectorState :=
  { st with active_opportunities :=
      st.active_opportunities.filter (fun opp => !decide (opp.expiry_time < now)) }

/-- StatisticalMispricingDetector::update_market_data: for each quote of the
snapshot, update the price history; then run the expiry cleanup. -/
def StatisticalMispricingDetector.update_market_data
    (params : DetectionParameters) (st : StatDetectorState)
    (snapshot : MarketSnapshot) (now : Timestamp) : StatDetectorState :=
  let st' := { st with price_history :=
      (snapshot.quotes.foldl
        (fun h iq => mapUpdate h iq.1 []
          (fun q => StatisticalMispricingDetector.update_price_history params q iq.2))
        st.price_history) }
  StatisticalMispricingDetector.cleanup_expired_opportunities st' now

/-- StatisticalMispricingDetector::detect_opportunities: for every instrument
whose price queue has at least `min_observation_window` entries, emit one
opportunity with the hardcoded demo values (deviation 2%, z-score 2.5,
confidence 0.85); `market_price` is the back of the queue's bid. The loop
"iterate, conditionally push_back" is encoded as `filterMap`. -/
def StatisticalMispricingDetector.detect_opportunities
    (params : DetectionParameters) (now : Timestamp)
    (price_history : List (InstrumentId × List Quote)) :
    List MispricingOpportunity :=
  price_history.filterMap (fun entry =>
    if entry.2.length ≥ params.min_observation_window then
      some { target_instrument := entry.1
             type := .STATISTICAL_ARBITRAGE
             severity := .MEDIUM
             market_price := backBidPrice entry.2
             theoretical_price := backBidPrice entry.2 * 1.02
             deviation_percentage := 0.02
             z_score := 2.5
             confidence_level := 0.85
             expected_profit := 100.0
             max_loss := 50.0
             value_at_risk := 30.0
             detection_time := now }
    else none)

/-- TriangularArbitrageDetector::detect_opportunities: one opportunity per
registered triangle with at least 3 instruments, with the hardcoded demo
values (deviation 1.5%, z-score 2.2, confidence 0.88);
`target_instrument = instruments[0]`. -/
def TriangularArbitrageDetector.detect_opportunities
    (params : DetectionParameters) (now : Timestamp)
    (currency_triangles : List (String × List InstrumentId)) :
    List MispricingOpportunity :=
  currency_triangles.filterMap (fun entry =>
    if entry.2.length ≥ 3 then
      some { target_instrument := entry.2.headD ""
             component_instruments := entry.2
             type := .CROSS_CURRENCY_TRIANGULAR
             severity := .MEDIUM
             market_price := 100.0
             theoretical_price := 101.5
             deviation_percentage := 0.015
             z_score := 2.2
             confidence_level := 0.88
             expected_profit := 150.0
             max_loss := 75.0
             detection_time := now }
    else none)

/-- VolatilityArbitrageDetector::detect_opportunities: one opportunity per
instrument whose mid-price history has at least 20 entries, with the
hardcoded demo values (deviation 0.8%, z-score 1.8, confidence 0.75). The
source also computes `calculate_realized_volatility` on the history and
discards the result, so that call does not affect the returned list and is
not repeated here. -/
def VolatilityArbitrageDetector.detect_opportunities
    (params : DetectionParameters) (now : Timestamp)
    (volatility_history : List (InstrumentId × List ℚ)) :
    List MispricingOpportunity :=
  volatility_history.filterMap (fun entry =>
    if entry.2.length ≥ 20 then
      some { target_instrument := entry.1
             type := .VOLATILITY_ARBITRAGE
             severity := .LOW
             market_price := 100.0
             theoretical_price := 100.8
             deviation_percentage := 0.008
             z_score := 1.8
             confidence_level := 0.75
             expected_profit := 80.0
             max_loss := 40.0
             detection_time := now }
    else none)

/-- The arithmetic mean used by StatisticalMispricingDetector::calculate_z_score:
`accumulate(values) / values.size()`. -/
def zscoreMean (values : List ℚ) : ℚ :=
  values.foldl (· + ·) 0 / values.length

/-- The (population) variance used by calculate_z_score: the sum of squared
deviations from the mean divided by `values.size()`. -/
def zscoreVariance (values : List ℚ) : ℚ :=
  values.foldl (fun acc val => acc + (val - zscoreMean values) * (val - zscoreMean values)) 0
    / values.length

/-- StatisticalMispricingDetector::calculate_z_score. `std::sqrt` is an
external library function; it is passed as the explicit parameter ` sq`, so
every branch of the source is represented: return 0 when the history has
fewer than 2 entries, otherwise divide by the standard deviation only when
it is positive and return 0 when it is not. -/
def StatisticalMispricingDetector.calculate_z_score ( sq : ℚ → ℚ)
    (history : List ℚ) (current_value : ℚ) : ℚ :=
  if history.length < 2 then 0
  else
    let std_dev := sq (zscoreVariance history)
    if std_dev > 0 then (current_value - zscoreMean history) / std_dev else 0

/-- PerpetualSwapPricingModel::calculate_perpetual_fair_value:
`mid_price = (bid + ask) / 2; return mid_price * (1 + funding_rate.rate)`. -/
def PerpetualSwapPricingModel.calculate_perpetual_fair_value
    (spot_quote : Quote) (funding_rate : FundingRate) : ℚ :=
  let mid_price := (spot_quote.bid_price + spot_quote.ask_price) / 2
  mid_price * (1 + funding_rate.rate)

/-- arbitrage::ArbitrageType. -/
inductive ArbitrageType where
  | PURE_ARBITRAGE
  | STATISTICAL_ARBITRAGE
  | TRIANGULAR_ARBITRAGE
  | CALENDAR_SPREAD
  | INTER_MARKET_SPREAD
  | SPOT_FUNDING_SYNTHETIC_PERPETUAL
  | CROSS_EXCHANGE_SYNTHETIC_REPLICATION
  | MULTI_INSTRUMENT_SYNTHETIC_COMBINATION
deriving DecidableEq

/-- arbitrage::ArbitrageStatus. -/
inductive ArbitrageStatus where
  | IDENTIFIED
  | VALIDATED
  | EXECUTING
  | COMPLETED
  | FAILED
  | EXPIRED
deriving DecidableEq

/-- arbitrage::ArbitrageLeg; the default constructor zeroes the numeric
fields (`side` is left uninitialized in C++; the Lean default stands in for
that indeterminate value and no theorem relies on it). -/
structure ArbitrageLeg where
  instrument_id : InstrumentId := ""
  side : Side := .BID
  size : Volume := 0
  entry_price : Price := 0
  exit_price : Price := 0
  weight : ℚ := 0
  entry_time : Timestamp := 0
  exit_time : Timestamp := 0
deriving DecidableEq

/-- arbitrage::ArbitrageOpportunity. -/
structure ArbitrageOpportunity where
  opportunity_id : String := ""
  type : ArbitrageType := .PURE_ARBITRAGE
  status : ArbitrageStatus := .IDENTIFIED
  legs : List ArbitrageLeg := []
  mispricing_source : MispricingOpportunity := {}
  expected_profit : ℚ := 0
  max_loss : ℚ := 0
  profit_probability : ℚ := 0
  break_even_price : ℚ := 0
  total_cost : ℚ := 0
  net_exposure : ℚ := 0
  value_at_risk : ℚ := 0
  expected_shortfall : ℚ := 0
  sharpe_ratio : ℚ := 0
  max_drawdown : ℚ := 0
  correlation_risk : ℚ := 0
  identification_time : Timestamp := 0
  validation_time : Timestamp := 0
  expiry_time : Timestamp := 0
  estimated_duration_ms : ℤ := 0
  slippage_estimate : ℚ := 0
  transaction_costs : ℚ := 0
  total_volume : Volume := 0
  market_impact : ℚ := 0
deriving DecidableEq

/-- The C++ `ArbitrageOpportunity{}` default constructor: every double is
zero-initialized, `opportunity_id` is the empty string, `legs` is empty and
`identification_time` is the clock reading at construction (`type` and
`status` are left uninitialized in C++; the Lean defaults stand in for those
indeterminate values and no theorem relies on them). -/
def ArbitrageOpportunity.defaultCtor (now : Timestamp) : ArbitrageOpportunity :=
  { identification_time := now }

/-- arbitrage::ArbitrageParameters with the defaults of the header. -/
structure ArbitrageParameters where
  min_profit_threshold : ℚ := 0.001
  max_risk_per_trade : ℚ := 0.02
  max_correlation_risk : ℚ := 0.3
  max_market_impact : ℚ := 0.005
  max_slippage : ℚ := 0.001
  max_position_size : Volume := 1000000.0
  max_holding_period_min : ℕ := 60
  min_liquidity_requirement : ℚ := 100000.0
  confidence_threshold : ℚ := 0.8
deriving DecidableEq

/-- The default-constructed `ArbitrageParameters{}`. -/
def ArbitrageParameters.defaults : ArbitrageParameters := {}

/-- ArbitrageEngine::optimize_legs: a primary leg on the target instrument
(side BID when market < theoretical else ASK, size 100, entry price the
market price, weight +1), then one hedge leg per component/weight pair
(the loop bound `i < components.size() && i < weights.size()` is the zip):
side ASK when the weight is positive else BID, size `|wᵢ| · 100`, entry
price 100, weight `−wᵢ`. -/
def ArbitrageEngine.optimize_legs (mispricing : MispricingOpportunity)
    (now : Timestamp) : List ArbitrageLeg :=
  let primary_leg : ArbitrageLeg :=
    { instrument_id := mispricing.target_instrument
      side := if mispricing.market_price < mispricing.theoretical_price
              then Side.BID else Side.ASK
      size := 100.0
      entry_price := mispricing.market_price
      weight := 1.0
      entry_time := now }
  let hedge_legs :=
    (mispricing.component_instruments.zip mispricing.weights).map
      (fun (cw : InstrumentId × ℚ) =>
        ({ instrument_id := cw.1
           side := if cw.2 > 0 then Side.ASK else Side.BID
           size := |cw.2| * 100.0
           entry_price := 100.0
           weight := -cw.2
           entry_time := now } : ArbitrageLeg))
  primary_leg :: hedge_legs

/-- ArbitrageEngine::create_arbitrage_from_mispricing: a fresh opportunity
(every field not assigned below keeps its default-constructed value — in
particular `total_cost` stays 0), with a generated id (the random id string
is the explicit parameter `oppId`), legs from `optimize_legs`, the financial
metrics copied from the mispricing, `identification_time = now` and
`expiry_time` taken from the mispricing. -/
def ArbitrageEngine.create_arbitrage_from_mispricing
    (mispricing : MispricingOpportunity) (now : Timestamp) (oppId : String) :
    ArbitrageOpportunity :=
  { opportunity_id := oppId
    type := .STATISTICAL_ARBITRAGE
    status := .IDENTIFIED
    mispricing_source := mispricing
    legs := ArbitrageEngine.optimize_legs mispricing now
    expected_profit := mispricing.expected_profit
    max_loss := mispricing.max_loss
    value_at_risk := mispricing.value_at_risk
    expected_shortfall := mispricing.expected_shortfall
    sharpe_ratio := mispricing.sharpe_ratio
    identification_time := now
    expiry_time := mispricing.expiry_time }

/-- ArbitrageEngine::calculate_market_impact:
`total_volume = Σ leg.size; return (total_volume / 1000.0) * 0.001` (the
in-source comment announces "0.1 basis points per 1000 units", but the
constant the code multiplies by is 0.001). -/
def ArbitrageEngine.calculate_market_impact (opportunity : ArbitrageOpportunity) : ℚ :=
  let total_volume := opportunity.legs.foldl (fun acc leg => acc + leg.size) 0
  (total_volume / 1000.0) * 0.001

/-- ArbitrageEngine::validate_liquidity: for each leg whose instrument has a
quote in the latest snapshot, the opposing-side size must not be below the
leg size (legs without a quote are skipped, i.e. pass). -/
def ArbitrageEngine.validate_liquidity (snapshot : MarketSnapshot)
    (opportunity : ArbitrageOpportunity) : Bool :=
  opportunity.legs.all (fun leg =>
    match snapshot.quotes.find? (fun e => decide (e.1 = leg.instrument_id)) with
    | some e =>
        let available_liquidity :=
          if leg.side = Side.BID then e.2.ask_size else e.2.bid_size
        !decide (available_liquidity < leg.size)
    | none => true)

/-- ArbitrageEngine::validate_risk_limits: fail when
`expected_profit < min_profit_threshold · total_cost`, or
`value_at_risk > max_risk_per_trade · total_cost`, or
`correlation_risk > max_correlation_risk`, or
`market_impact > max_market_impact`. -/
def ArbitrageEngine.validate_risk_limits (params : ArbitrageParameters)
    (opportunity : ArbitrageOpportunity) : Bool :=
  !decide (opportunity.expected_profit < params.min_profit_threshold * opportunity.total_cost) &&
  !decide (opportunity.value_at_risk > params.max_risk_per_trade * opportunity.total_cost) &&
  !decide (opportunity.correlation_risk > params.max_correlation_risk) &&
  !decide (opportunity.market_impact > params.max_market_impact)

/-- ArbitrageEngine::validate_timing: fail when `now ≥ expiry_time`, or when
fewer than 5 whole minutes remain (`duration_cast<minutes>` truncates the
nanosecond difference; 1 min = 60·10⁹ ticks). -/
def ArbitrageEngine.validate_timing (now : Timestamp)
    (opportunity : ArbitrageOpportunity) : Bool :=
  if now ≥ opportunity.expiry_time then false
  else
    let time_remaining_min := (opportunity.expiry_time - now) / 60000000000
    if time_remaining_min < 5 then false else true

/-- ArbitrageEngine::validate_execution_feasibility: fail when
`Σ leg.size · leg.entry_price > max_position_size` or when
`slippage_estimate > max_slippage`. -/
def ArbitrageEngine.validate_execution_feasibility (params : ArbitrageParameters)
    (opportunity : ArbitrageOpportunity) : Bool :=
  let total_position_value :=
    opportunity.legs.foldl (fun acc leg => acc + leg.size * leg.entry_price) 0
  !decide (total_position_value > params.max_position_size) &&
  !decide (opportunity.slippage_estimate > params.max_slippage)

/-- ArbitrageEngine::validate_opportunity: conjunction of the four checks;
when all pass, the opportunity's status becomes VALIDATED and its
`validation_time` is stamped. Returns the (possibly updated) opportunity and
the boolean result. -/
def ArbitrageEngine.validate_opportunity (params : ArbitrageParameters)
    (snapshot : MarketSnapshot) (now : Timestamp)
    (opportunity : ArbitrageOpportunity) : ArbitrageOpportunity × Bool :=
  let is_valid :=
    ArbitrageEngine.validate_liquidity snapshot opportunity &&
    ArbitrageEngine.validate_risk_limits params opportunity &&
    ArbitrageEngine.validate_timing now opportunity &&
    ArbitrageEngine.validate_execution_feasibility params opportunity
  if is_valid then
    ({ opportunity with status := .VALIDATED, validation_time := now }, true)
  else
    (opportunity, false)

/-- The mutable state of an ArbitrageEngine: parameters, the latest
snapshot, `active_opportunities_`, and the list of opportunities the
`opportunity_callback_` has been invoked on (the observable callback
trace). The `pending_mispricings_` queue is omitted from the state: it is
touched only inside `process_mispricing`, which pushes one element and then
drains the queue completely, so it is empty between calls. -/
structure EngineState where
  params : ArbitrageParameters := {}
  latest_snapshot : MarketSnapshot := {}
  active_opportunities : List ArbitrageOpportunity := []
  fired_opportunity_callbacks : List ArbitrageOpportunity := []
deriving DecidableEq

/-- ArbitrageEngine::process_mispricing on one mispricing (the queue is
drained within the call): build the arbitrage opportunity, validate it; on
success append it to the active list and fire the opportunity callback; on
failure the state is unchanged — the opportunity is discarded. -/
def ArbitrageEngine.process_mispricing (st : EngineState)
    (mispricing : MispricingOpportunity) (now : Timestamp) (oppId : String) :
    EngineState :=
  let arbitrage_opp := ArbitrageEngine.create_arbitrage_from_mispricing mispricing now oppId
  let r := ArbitrageEngine.validate_opportunity st.params st.latest_snapshot now arbitrage_opp
  if r.2 then
    { st with active_opportunities := st.active_opportunities ++ [r.1]
              fired_opportunity_callbacks := st.fired_opportunity_callbacks ++ [r.1] }
  else st

/-- ArbitrageEngine::cleanup_expired_opportunities: erase from the active
list every entry with `now ≥ expiry_time`. No callback of any kind is
invoked by this method. -/
def ArbitrageEngine.cleanup_expired_opportunities (st : EngineState)
    (now : Timestamp) : EngineState :=
  { st with active_opportunities :=
      st.active_opportunities.filter (fun opp => !decide (now ≥ opp.expiry_time)) }

/-- ArbitrageEngine::update_market_data: store the snapshot, then run the
expiry cleanup. -/
def ArbitrageEngine.update_market_data (st : EngineState)
    (snapshot : MarketSnapshot) (now : Timestamp) : EngineState :=
  ArbitrageEngine.cleanup_expired_opportunities
    { st with latest_snapshot := snapshot } now

/-- ArbitrageEngine::get_opportunity_by_id (a const method — it cannot touch
the active list): the first active opportunity with a matching id, or a
default-constructed `ArbitrageOpportunity{}` when none matches. -/
def ArbitrageEngine.get_opportunity_by_id
    (active_opportunities : List ArbitrageOpportunity) (oppId : String)
    (now : Timestamp) : ArbitrageOpportunity :=
  match active_opportunities.find? (fun opp => opp.opportunity_id == oppId) with
  | some opp => opp
  | none => ArbitrageOpportunity.defaultCtor now

/-- TriangularArbitrageEngine::validate_opportunity: unconditionally sets
status VALIDATED, stamps `validation_time`, and returns true — no predicate
is evaluated. -/
def TriangularArbitrageEngine.validate_opportunity (now : Timestamp)
    (opportunity : ArbitrageOpportunity) : ArbitrageOpportunity × Bool :=
  ({ opportunity with status := .VALIDATED, validation_time := now }, true)

/-! Concrete probe values used by the witnesses and counterexamples below. -/

/-- A default-constructed quote. -/
def defaultQuote : Quote := {}

/-- A statistical-detector history with one instrument whose quote queue has
exactly the default observation window (50 default-constructed quotes). -/
def statGateProbeHistory : List (InstrumentId × List Quote) :=
  [("BTC-USD", List.replicate 49 defaultQuote ++ [defaultQuote])]

/-- The opportunity the statistical detector emits on
`statGateProbeHistory` (the back quote's bid is 0). -/
def statGateProbeOpp : MispricingOpportunity :=
  { target_instrument := "BTC-USD"
    type := .STATISTICAL_ARBITRAGE
    severity := .MEDIUM
    market_price := 0
    theoretical_price := 0
    deviation_percentage := 0.02
    z_score := 2.5
    confidence_level := 0.85
    expected_profit := 100.0
    max_loss := 50.0
    value_at_risk := 30.0
    detection_time := 0 }

/-- A volatility-detector history with one instrument and 20 mid prices. -/
def volGateProbeHistory : List (InstrumentId × List ℚ) :=
  [("BTC-USD", List.replicate 20 (100 : ℚ))]

/-- The opportunity the volatility detector emits on `volGateProbeHistory`. -/
def volGateProbeOpp : MispricingOpportunity :=
  { target_instrument := "BTC-USD"
    type := .VOLATILITY_ARBITRAGE
    severity := .LOW
    market_price := 100.0
    theoretical_price := 100.8
    deviation_percentage := 0.008
    z_score := 1.8
    confidence_level := 0.75
    expected_profit := 80.0
    max_loss := 40.0
    detection_time := 0 }

/-- An opportunity that passes all four ArbitrageEngine checks against an
empty snapshot at time 0: no legs, all metrics 0, and an expiry 10000
minutes away. -/
def validateProbePass : ArbitrageOpportunity :=
  { ArbitrageOpportunity.defaultCtor 0 with expiry_time := 600000000000000 }

/-- `validateProbePass` as returned by a successful validation at time 0. -/
def validateProbeValidated : ArbitrageOpportunity :=
  { validateProbePass with status := .VALIDATED, validation_time := 0 }

/-- The risk-limit probe of the spec's validation-failure scenario:
`expected_profit = 10`, `total_cost = 20000` (and an unexpired expiry). -/
def riskFailOpp : ArbitrageOpportunity :=
  { ArbitrageOpportunity.defaultCtor 0 with
      expected_profit := 10
      total_cost := 20000
      expiry_time := 600000000000000 }

/-- A mispricing whose derived arbitrage opportunity fails validation:
`total_cost` of the derived opportunity stays 0, so its
`value_at_risk = 30 > max_risk_per_trade · 0` fails the risk limits. -/
def failProbeMispricing : MispricingOpportunity :=
  { expected_profit := 100.0
    max_loss := 50.0
    value_at_risk := 30.0
    expiry_time := 600000000000000 }

/-- A default-constructed engine state (default parameters, empty snapshot,
no active opportunities, no callbacks fired). -/
def failProbeState : EngineState := {}

/-- An unexpired mispricing opportunity (expiry at tick 10). -/
def freshExpiryOpp : MispricingOpportunity := { expiry_time := 10 }

/-- An already-expired mispricing opportunity (expiry one tick before 0). -/
def expiredOpp : MispricingOpportunity := { expiry_time := -1 }

/-- A detector state holding one unexpired active opportunity. -/
def expirySweepState : StatDetectorState :=
  { active_opportunities := [freshExpiryOpp] }

/-- A detector state holding one expired active opportunity and an empty
callback trace. -/
def expiredSweepState : StatDetectorState :=
  { active_opportunities := [expiredOpp] }

/-- A mispricing with one component of weight 2 and market below
theoretical. -/
def hedgeProbeMispricing : MispricingOpportunity :=
  { target_instrument := "SYN"
    market_price := 95
    theoretical_price := 100
    component_instruments := ["X"]
    weights := [2] }

/-- A mispricing with market above theoretical and one positive-weight
component: the primary leg is an ASK and so is the hedge leg. -/
def sameSideProbe : MispricingOpportunity :=
  { target_instrument := "SYN"
    market_price := 110
    theoretical_price := 100
    component_instruments := ["X"]
    weights := [1] }

/-- A one-leg opportunity trading 1000 units in total. -/
def marketImpactProbe : ArbitrageOpportunity :=
  { ArbitrageOpportunity.defaultCtor 0 with
      legs := [{ instrument_id := "BTC-USD"
                 side := .BID
                 size := 1000
                 entry_price := 100
                 weight := 1
                 entry_time := 0 }] }

/-- An active opportunity with a known id. -/
def knownOpp : ArbitrageOpportunity :=
  { ArbitrageOpportunity.defaultCtor 0 with opportunity_id := "ARB_1700000000000_1234" }

end SPE

namespace SPE

/-- Claim C7: for every spot quote and funding rate, the perpetual-swap
model's theoretical (fair value) perpetual price equals
spot_mid · (1 + funding_rate) with spot_mid = (bid_price + ask_price) / 2. -/
theorem perpetual_fair_value_is_spot_mid_times_one_plus_funding
    (spot_quote : Quote) (funding_rate : FundingRate) :
    PerpetualSwapPricingModel.calculate_perpetual_fair_value spot_quote funding_rate
      = ((spot_quote.bid_price + spot_quote.ask_price) / 2) * (1 + funding_rate.rate) := by
  rfl

/-- Claim C8: for every strike k, time-to-expiry t and volatility v,
interpolating at (k, t) right after `update_point k t v` returns exactly v:
the surface round-trips stored points. -/
theorem interpolate_after_update_point_roundtrip
    (s : VolSurfaceMap) (k t v : ℚ) :
    VolatilitySurface.interpolate_volatility
      (VolatilitySurface.update_point s k t v) k t = v := by
  simp [VolatilitySurface.interpolate_volatility, VolatilitySurface.update_point,
    List.find?]

/-- Claim C1, amended: under the default DetectionParameters, every
opportunity returned by the statistical and triangular detectors satisfies
the significance gate (|deviation| > min_deviation_threshold,
|z| > min_z_score, confidence > min_confidence_level), but every opportunity
returned by the volatility detector satisfies only the deviation condition
and violates the z-score and confidence conditions: the emitted values are
hardcoded and no detector consults its parameters at emission. -/
theorem detector_significance_gate_under_default_params
    (now : Timestamp) (hist : List (InstrumentId × List Quote))
    (tris : List (String × List InstrumentId))
    (vhist : List (InstrumentId × List ℚ)) :
    (∀ opp ∈ StatisticalMispricingDetector.detect_opportunities
        DetectionParameters.defaults now hist,
      StatisticalMispricingDetector.is_significant_deviation DetectionParameters.defaults
        opp.deviation_percentage opp.z_score opp.confidence_level = true) ∧
    (∀ opp ∈ TriangularArbitrageDetector.detect_opportunities
        DetectionParameters.defaults now tris,
      StatisticalMispricingDetector.is_significant_deviation DetectionParameters.defaults
        opp.deviation_percentage opp.z_score opp.confidence_level = true) ∧
    (∀ opp ∈ VolatilityArbitrageDetector.detect_opportunities
        DetectionParameters.defaults now vhist,
      |opp.deviation_percentage| > DetectionParameters.defaults.min_deviation_threshold ∧
      ¬ |opp.z_score| > DetectionParameters.defaults.min_z_score ∧
      ¬ opp.confidence_level > DetectionParameters.defaults.min_confidence_level) := by
  refine ⟨?_, ?_, ?_⟩
  · intro opp hmem
    simp only [StatisticalMispricingDetector.detect_opportunities,
      List.mem_filterMap] at hmem
    obtain ⟨entry, -, hf⟩ := hmem
    split at hf
    · injection hf with hopp
      subst hopp
      norm_num [StatisticalMispricingDetector.is_significant_deviation,
        DetectionParameters.defaults, abs_of_nonneg]
    · exact absurd hf (by simp)
  · intro opp hmem
    simp only [TriangularArbitrageDetector.detect_opportunities,
      List.mem_filterMap] at hmem
    obtain ⟨entry, -, hf⟩ := hmem
    split at hf
    · injection hf with hopp
      subst hopp
      norm_num [StatisticalMispricingDetector.is_significant_deviation,
        DetectionParameters.defaults, abs_of_nonneg]
    · exact absurd hf (by simp)
  · intro opp hmem
    simp only [VolatilityArbitrageDetector.detect_opportunities,
      List.mem_filterMap] at hmem
    obtain ⟨entry, -, hf⟩ := hmem
    split at hf
    · injection hf with hopp
      subst hopp
      refine ⟨?_, ?_, ?_⟩ <;>
        norm_num [DetectionParameters.defaults, abs_of_nonneg]
    · exact absurd hf (by simp)

/-- Witness for C1's amended theorem: the statistical detector on a
50-quote history emits `statGateProbeOpp`, and the gate holds for it under
the default parameters. -/
theorem detector_significance_gate_witness :
    StatisticalMispricingDetector.is_significant_deviation DetectionParameters.defaults
      statGateProbeOpp.deviation_percentage statGateProbeOpp.z_score
      statGateProbeOpp.confidence_level = true :=
  (detector_significance_gate_under_default_params 0 statGateProbeHistory [] []).1
    statGateProbeOpp (by
      have hdet : StatisticalMispricingDetector.detect_opportunities
          DetectionParameters.defaults 0 statGateProbeHistory = [statGateProbeOpp] := by
        simp [StatisticalMispricingDetector.detect_opportunities, statGateProbeHistory,
          statGateProbeOpp, DetectionParameters.defaults, backBidPrice, defaultQuote,
          List.getLast?_concat]
      rw [hdet]
      exact List.mem_singleton_self _)

/-- Counterexample to C1 as stated: on a 20-price history the volatility
detector emits an opportunity (z-score 1.8, confidence 0.75) that fails the
significance gate of the default DetectionParameters
(min_z_score 2.0, min_confidence_level 0.8). -/
theorem volatility_detector_emits_below_default_gate :
    volGateProbeOpp ∈ VolatilityArbitrageDetector.detect_opportunities
      DetectionParameters.defaults 0 volGateProbeHistory ∧
    StatisticalMispricingDetector.is_significant_deviation DetectionParameters.defaults
      volGateProbeOpp.deviation_percentage volGateProbeOpp.z_score
      volGateProbeOpp.confidence_level = false := by
  constructor
  · have hdet : VolatilityArbitrageDetector.detect_opportunities
        DetectionParameters.defaults 0 volGateProbeHistory = [volGateProbeOpp] := by
      simp [VolatilityArbitrageDetector.detect_opportunities, volGateProbeHistory,
        volGateProbeOpp, DetectionParameters.defaults]
    rw [hdet]
    exact List.mem_singleton_self _
  · norm_num [StatisticalMispricingDetector.is_significant_deviation,
      volGateProbeOpp, DetectionParameters.defaults, abs_of_nonneg]

/-- Claim C2, amended: every opportunity ArbitrageEngine::validate_opportunity
returns with `true` (setting status VALIDATED) satisfies all four
validation predicates — liquidity, risk limits, timing, execution
feasibility; TriangularArbitrageEngine::validate_opportunity, however, sets
status VALIDATED and returns true unconditionally, evaluating no
predicate. -/
theorem validated_only_when_all_four_checks_pass
    (params : ArbitrageParameters) (snapshot : MarketSnapshot) (now : Timestamp)
    (opportunity : ArbitrageOpportunity) :
    (∀ result : ArbitrageOpportunity,
      ArbitrageEngine.validate_opportunity params snapshot now opportunity = (result, true) →
      ArbitrageEngine.validate_liquidity snapshot opportunity = true ∧
      ArbitrageEngine.validate_risk_limits params opportunity = true ∧
      ArbitrageEngine.validate_timing now opportunity = true ∧
      ArbitrageEngine.validate_execution_feasibility params opportunity = true ∧
      result.status = .VALIDATED) ∧
    ((TriangularArbitrageEngine.validate_opportunity now opportunity).1.status = .VALIDATED ∧
      (TriangularArbitrageEngine.validate_opportunity now opportunity).2 = true) := by
  refine ⟨?_, rfl, rfl⟩
  intro result h
  simp only [ArbitrageEngine.validate_opportunity] at h
  split at h
  case isTrue hv =>
    rw [Prod.mk.injEq] at h
    simp only [Bool.and_eq_true] at hv
    refine ⟨hv.1.1.1, hv.1.1.2, hv.1.2, hv.2, ?_⟩
    rw [← h.1]
  case isFalse hv =>
    rw [Prod.mk.injEq] at h
    exact absurd h.2 (by simp)

/-- Witness for C2's amended theorem: `validateProbePass` passes all four
checks against default parameters and an empty snapshot at time 0, so the
theorem yields its four predicates and the VALIDATED status of the result. -/
theorem validated_only_when_all_four_checks_pass_witness :
    ArbitrageEngine.validate_liquidity {} validateProbePass = true ∧
    ArbitrageEngine.validate_risk_limits ArbitrageParameters.defaults validateProbePass = true ∧
    ArbitrageEngine.validate_timing 0 validateProbePass = true ∧
    ArbitrageEngine.validate_execution_feasibility ArbitrageParameters.defaults
      validateProbePass = true ∧
    validateProbeValidated.status = .VALIDATED :=
  (validated_only_when_all_four_checks_pass ArbitrageParameters.defaults {} 0
    validateProbePass).1 validateProbeValidated (by
      have hliq : ArbitrageEngine.validate_liquidity {} validateProbePass = true := rfl
      have hrisk : ArbitrageEngine.validate_risk_limits ArbitrageParameters.defaults
          validateProbePass = true := by
        norm_num [ArbitrageEngine.validate_risk_limits, ArbitrageParameters.defaults,
          validateProbePass, ArbitrageOpportunity.defaultCtor]
      have htim : ArbitrageEngine.validate_timing 0 validateProbePass = true := by decide
      have hfeas : ArbitrageEngine.validate_execution_feasibility ArbitrageParameters.defaults
          validateProbePass = true := by
        norm_num [ArbitrageEngine.validate_execution_feasibility, ArbitrageParameters.defaults,
          validateProbePass, ArbitrageOpportunity.defaultCtor]
      simp [ArbitrageEngine.validate_opportunity, hliq, hrisk, htim, hfeas,
        validateProbeValidated])

/-- Counterexample to C2 as stated: TriangularArbitrageEngine's
validate_opportunity marks `riskFailOpp` VALIDATED even though the
risk-limit predicate fails for it (10 < 0.001 · 20000). -/
theorem triangular_engine_validates_without_checks :
    (TriangularArbitrageEngine.validate_opportunity 0 riskFailOpp).1.status = .VALIDATED ∧
    (TriangularArbitrageEngine.validate_opportunity 0 riskFailOpp).2 = true ∧
    ArbitrageEngine.validate_risk_limits ArbitrageParameters.defaults riskFailOpp = false := by
  refine ⟨rfl, rfl, ?_⟩
  norm_num [ArbitrageEngine.validate_risk_limits, ArbitrageParameters.defaults,
    riskFailOpp, ArbitrageOpportunity.defaultCtor]

/-- Claim C6: the code computes
`market_impact = (Σ leg.size / 1000) · 0.001` — a rate of 10 basis points
per 1000 units — even though both the claim and the code's own comment say
0.1 basis points (0.00001) per 1000 units: at total volume 1000 the result
is 0.001, not 0.00001. -/
theorem market_impact_rate_contradicts_its_comment :
    ArbitrageEngine.calculate_market_impact marketImpactProbe = 0.001 ∧
    ArbitrageEngine.calculate_market_impact marketImpactProbe ≠ 0.00001 * (1000 / 1000) := by
  constructor <;>
    norm_num [ArbitrageEngine.calculate_market_impact, marketImpactProbe,
      ArbitrageOpportunity.defaultCtor]

/-- The arbitrage opportunity derived from `failProbeMispricing` fails
validation: its `total_cost` stays 0, so `value_at_risk = 30` exceeds
`max_risk_per_trade · 0`. -/
theorem failProbeFailsValidation :
    (ArbitrageEngine.validate_opportunity failProbeState.params
      failProbeState.latest_snapshot 0
      (ArbitrageEngine.create_arbitrage_from_mispricing failProbeMispricing 0
        "ARB_0_0000")).2 = false := by
  have hrisk : ArbitrageEngine.validate_risk_limits failProbeState.params
      (ArbitrageEngine.create_arbitrage_from_mispricing failProbeMispricing 0
        "ARB_0_0000") = false := by
    norm_num [ArbitrageEngine.validate_risk_limits,
      ArbitrageEngine.create_arbitrage_from_mispricing, failProbeMispricing,
      failProbeState, ArbitrageParameters.defaults]
  simp [ArbitrageEngine.validate_opportunity, hrisk]

/-- Claim C3, amended: a mispricing whose derived opportunity fails
validation leaves the engine state unchanged — the opportunity is not added
to the active set and no opportunity callback fires — and the opportunity is
discarded with its status still IDENTIFIED (it is never set to FAILED);
moreover an opportunity with expected_profit = 10 and total_cost = 20000
fails the risk-limit check under min_profit_threshold = 0.001. -/
theorem failed_validation_discards_with_status_identified
    (st : EngineState) (m : MispricingOpportunity) (now : Timestamp) (oppId : String)
    (h : (ArbitrageEngine.validate_opportunity st.params st.latest_snapshot now
      (ArbitrageEngine.create_arbitrage_from_mispricing m now oppId)).2 = false) :
    ArbitrageEngine.process_mispricing st m now oppId = st ∧
    (ArbitrageEngine.create_arbitrage_from_mispricing m now oppId).status = .IDENTIFIED ∧
    ArbitrageEngine.validate_risk_limits ArbitrageParameters.defaults
      { ArbitrageOpportunity.defaultCtor 0 with
          expected_profit := 10, total_cost := 20000 } = false := by
  refine ⟨?_, rfl, ?_⟩
  · simp [ArbitrageEngine.process_mispricing, h]
  · norm_num [ArbitrageEngine.validate_risk_limits, ArbitrageParameters.defaults,
      ArbitrageOpportunity.defaultCtor]

/-- Witness for C3's amended theorem at `failProbeMispricing` against a
default-constructed engine state. -/
theorem failed_validation_discards_witness :
    ArbitrageEngine.process_mispricing failProbeState failProbeMispricing 0 "ARB_0_0000"
      = failProbeState ∧
    (ArbitrageEngine.create_arbitrage_from_mispricing failProbeMispricing 0
      "ARB_0_0000").status = .IDENTIFIED ∧
    ArbitrageEngine.validate_risk_limits ArbitrageParameters.defaults
      { ArbitrageOpportunity.defaultCtor 0 with
          expected_profit := 10, total_cost := 20000 } = false :=
  failed_validation_discards_with_status_identified failProbeState failProbeMispricing
    0 "ARB_0_0000" failProbeFailsValidation

/-- Counterexample to C3's "its status becomes Failed": `failProbeMispricing`
derives an opportunity that fails validation, yet after `process_mispricing`
it was simply dropped with status IDENTIFIED — no transition to FAILED ever
happens. -/
theorem failed_validation_leaves_status_identified_not_failed :
    (ArbitrageEngine.validate_opportunity failProbeState.params
      failProbeState.latest_snapshot 0
      (ArbitrageEngine.create_arbitrage_from_mispricing failProbeMispricing 0
        "ARB_0_0000")).2 = false ∧
    ArbitrageEngine.process_mispricing failProbeState failProbeMispricing 0 "ARB_0_0000"
      = failProbeState ∧
    (ArbitrageEngine.create_arbitrage_from_mispricing failProbeMispricing 0
      "ARB_0_0000").status ≠ .FAILED := by
  refine ⟨failProbeFailsValidation, ?_, by decide⟩
  simp [ArbitrageEngine.process_mispricing, failProbeFailsValidation]

/-- Claim C4, amended: on every `update_market_data` call the cleanup pass
removes from the active set exactly the entries whose expiry has passed
(strictly past `now` for the detector, past-or-equal for the engine) and
retains the rest, and the expiry callback trace is unchanged: the cleanup
code never invokes the `expiry_callback` (zero invocations per removed
entry), so subsequent sweeps trivially cannot refire it. -/
theorem expiry_sweep_removes_expired_without_firing_callback
    (params : DetectionParameters) (st : StatDetectorState)
    (snapshot : MarketSnapshot) (now : Timestamp)
    (est : EngineState) (esnapshot : MarketSnapshot) (enow : Timestamp) :
    (∀ opp ∈ (StatisticalMispricingDetector.update_market_data params st snapshot
        now).active_opportunities, ¬ opp.expiry_time < now) ∧
    (∀ opp ∈ st.active_opportunities, ¬ opp.expiry_time < now →
      opp ∈ (StatisticalMispricingDetector.update_market_data params st snapshot
        now).active_opportunities) ∧
    (StatisticalMispricingDetector.update_market_data params st snapshot
        now).fired_expiry_callbacks = st.fired_expiry_callbacks ∧
    (∀ opp ∈ (ArbitrageEngine.update_market_data est esnapshot
        enow).active_opportunities, ¬ enow ≥ opp.expiry_time) ∧
    (∀ opp ∈ est.active_opportunities, ¬ enow ≥ opp.expiry_time →
      opp ∈ (ArbitrageEngine.update_market_data est esnapshot
        enow).active_opportunities) ∧
    (ArbitrageEngine.update_market_data est esnapshot
        enow).fired_opportunity_callbacks = est.fired_opportunity_callbacks := by
  refine ⟨?_, ?_, rfl, ?_, ?_, rfl⟩
  · intro opp hmem
    simp only [StatisticalMispricingDetector.update_market_data,
      StatisticalMispricingDetector.cleanup_expired_opportunities, List.mem_filter,
      Bool.not_eq_true', decide_eq_false_iff_not] at hmem
    exact hmem.2
  · intro opp hmem hkeep
    simp only [StatisticalMispricingDetector.update_market_data,
      StatisticalMispricingDetector.cleanup_expired_opportunities, List.mem_filter,
      Bool.not_eq_true', decide_eq_false_iff_not]
    exact ⟨hmem, hkeep⟩
  · intro opp hmem
    simp only [ArbitrageEngine.update_market_data,
      ArbitrageEngine.cleanup_expired_opportunities, List.mem_filter,
      Bool.not_eq_true', decide_eq_false_iff_not] at hmem
    exact hmem.2
  · intro opp hmem hkeep
    simp only [ArbitrageEngine.update_market_data,
      ArbitrageEngine.cleanup_expired_opportunities, List.mem_filter,
      Bool.not_eq_true', decide_eq_false_iff_not]
    exact ⟨hmem, hkeep⟩

/-- Witness for C4's amended theorem: an unexpired opportunity survives the
sweep at time 0 and the callback trace is untouched. -/
theorem expiry_sweep_witness :
    freshExpiryOpp ∈ (StatisticalMispricingDetector.update_market_data
      DetectionParameters.defaults expirySweepState {} 0).active_opportunities ∧
    (StatisticalMispricingDetector.update_market_data DetectionParameters.defaults
      expirySweepState {} 0).fired_expiry_callbacks
        = expirySweepState.fired_expiry_callbacks :=
  ⟨(expiry_sweep_removes_expired_without_firing_callback DetectionParameters.defaults
      expirySweepState {} 0 {} {} 0).2.1 freshExpiryOpp (by decide) (by decide),
   (expiry_sweep_removes_expired_without_firing_callback DetectionParameters.defaults
      expirySweepState {} 0 {} {} 0).2.2.1⟩

/-- Counterexample to C4's "invokes the expiry_callback exactly once per
removed entry": the sweep removes the expired opportunity (expiry −1 at
time 0) but the callback is fired zero times, not once — neither cleanup
routine references the expiry callback at all. -/
theorem expiry_sweep_fires_zero_callbacks :
    (StatisticalMispricingDetector.update_market_data DetectionParameters.defaults
      expiredSweepState {} 0).active_opportunities = [] ∧
    (StatisticalMispricingDetector.update_market_data DetectionParameters.defaults
      expiredSweepState {} 0).fired_expiry_callbacks.length = 0 := by
  constructor
  · simp [StatisticalMispricingDetector.update_market_data,
      StatisticalMispricingDetector.cleanup_expired_opportunities, expiredSweepState,
      expiredOpp]
  · rfl

/-- Claim C5, amended: the legs built from a mispricing (with as many
weights as components) are exactly one primary leg on the target instrument
— side BID if market < theoretical else ASK, size 100 (the base size),
weight +1 — followed by one hedge leg per component instrument whose side
is ASK when the component weight is positive and BID otherwise (opposite to
the primary side only when market < theoretical), whose size is
|wᵢ| · base_size and whose weight is −wᵢ. -/
theorem optimize_legs_primary_and_hedge_structure
    (m : MispricingOpportunity) (now : Timestamp)
    (hlen : m.component_instruments.length = m.weights.length) :
    (ArbitrageEngine.optimize_legs m now).length = m.weights.length + 1 ∧
    (ArbitrageEngine.optimize_legs m now).get? 0 = some
      { instrument_id := m.target_instrument
        side := if m.market_price < m.theoretical_price then Side.BID else Side.ASK
        size := 100.0
        entry_price := m.market_price
        weight := 1.0
        entry_time := now } ∧
    (∀ (i : ℕ) (c : InstrumentId) (w : ℚ),
      m.component_instruments.get? i = some c → m.weights.get? i = some w →
      (ArbitrageEngine.optimize_legs m now).get? (i + 1) = some
        { instrument_id := c
          side := if w > 0 then Side.ASK else Side.BID
          size := |w| * 100.0
          entry_price := 100.0
          weight := -w
          entry_time := now }) := by
  refine ⟨?_, rfl, ?_⟩
  · simp [ArbitrageEngine.optimize_legs, List.length_zip, hlen]
  · intro i c w hc hw
    have hz : (m.component_instruments.zip m.weights).get? i = some (c, w) :=
      (List.get?_zip_eq_some m.component_instruments m.weights (c, w) i).mpr ⟨hc, hw⟩
    simp only [ArbitrageEngine.optimize_legs, List.get?_cons_succ, List.get?_map, hz,
      Option.map_some']

/-- Witness for C5's amended theorem: the mispricing on "SYN"
(market 95 < theoretical 100) with one component "X" of weight 2 yields a
BID primary leg and an ASK hedge leg of size 200 and weight −2. -/
theorem optimize_legs_structure_witness :
    (ArbitrageEngine.optimize_legs hedgeProbeMispricing 0).get? 1 = some
      { instrument_id := "X"
        side := Side.ASK
        size := 200.0
        entry_price := 100.0
        weight := -2
        entry_time := 0 } := by
  have h := (optimize_legs_primary_and_hedge_structure hedgeProbeMispricing 0 rfl).2.2
    0 "X" 2 rfl rfl
  rw [h]
  norm_num [abs_of_nonneg]

/-- Counterexample to C5's "side is opposite to the primary leg's side when
wᵢ is positive": with market 110 above theoretical 100 and component weight
+1, both the primary leg and the hedge leg are ASK. -/
theorem hedge_leg_not_opposite_when_market_above_theoretical :
    ((ArbitrageEngine.optimize_legs sameSideProbe 0).get? 0).map ArbitrageLeg.side
      = some Side.ASK ∧
    ((ArbitrageEngine.optimize_legs sameSideProbe 0).get? 1).map ArbitrageLeg.side
      = some Side.ASK := by
  constructor <;>
    norm_num [ArbitrageEngine.optimize_legs, sameSideProbe]

/-- Claim C9: when no active opportunity matches the requested id,
get_opportunity_by_id signals no error and returns a default-constructed
ArbitrageOpportunity: empty opportunity_id, no legs, and every financial and
risk metric zero (the method is const, so the active set is unchanged by
construction of the embedding). -/
theorem unknown_id_returns_default_constructed
    (active : List ArbitrageOpportunity) (oppId : String) (now : Timestamp)
    (h : ∀ opp ∈ active, opp.opportunity_id ≠ oppId) :
    (ArbitrageEngine.get_opportunity_by_id active oppId now).opportunity_id = "" ∧
    (ArbitrageEngine.get_opportunity_by_id active oppId now).legs = [] ∧
    (ArbitrageEngine.get_opportunity_by_id active oppId now).expected_profit = 0 ∧
    (ArbitrageEngine.get_opportunity_by_id active oppId now).max_loss = 0 ∧
    (ArbitrageEngine.get_opportunity_by_id active oppId now).profit_probability = 0 ∧
    (ArbitrageEngine.get_opportunity_by_id active oppId now).break_even_price = 0 ∧
    (ArbitrageEngine.get_opportunity_by_id active oppId now).total_cost = 0 ∧
    (ArbitrageEngine.get_opportunity_by_id active oppId now).net_exposure = 0 ∧
    (ArbitrageEngine.get_opportunity_by_id active oppId now).value_at_risk = 0 ∧
    (ArbitrageEngine.get_opportunity_by_id active oppId now).expected_shortfall = 0 ∧
    (ArbitrageEngine.get_opportunity_by_id active oppId now).sharpe_ratio = 0 ∧
    (ArbitrageEngine.get_opportunity_by_id active oppId now).max_drawdown = 0 ∧
    (ArbitrageEngine.get_opportunity_by_id active oppId now).correlation_risk = 0 := by
  have hfind : active.find? (fun opp => opp.opportunity_id == oppId) = none := by
    rw [List.find?_eq_none]
    intro x hx
    simpa using h x hx
  simp [ArbitrageEngine.get_opportunity_by_id, hfind, ArbitrageOpportunity.defaultCtor]

/-- Witness for C9's theorem: querying an id absent from a one-element
active list. -/
theorem unknown_id_returns_default_constructed_witness :
    (ArbitrageEngine.get_opportunity_by_id [knownOpp] "ARB_MISSING" 7).opportunity_id
      = "" ∧
    (ArbitrageEngine.get_opportunity_by_id [knownOpp] "ARB_MISSING" 7).legs = [] ∧
    (ArbitrageEngine.get_opportunity_by_id [knownOpp] "ARB_MISSING" 7).expected_profit = 0 ∧
    (ArbitrageEngine.get_opportunity_by_id [knownOpp] "ARB_MISSING" 7).max_loss = 0 ∧
    (ArbitrageEngine.get_opportunity_by_id [knownOpp] "ARB_MISSING" 7).profit_probability = 0 ∧
    (ArbitrageEngine.get_opportunity_by_id [knownOpp] "ARB_MISSING" 7).break_even_price = 0 ∧
    (ArbitrageEngine.get_opportunity_by_id [knownOpp] "ARB_MISSING" 7).total_cost = 0 ∧
    (ArbitrageEngine.get_opportunity_by_id [knownOpp] "ARB_MISSING" 7).net_exposure = 0 ∧
    (ArbitrageEngine.get_opportunity_by_id [knownOpp] "ARB_MISSING" 7).value_at_risk = 0 ∧
    (ArbitrageEngine.get_opportunity_by_id [knownOpp] "ARB_MISSING" 7).expected_shortfall = 0 ∧
    (ArbitrageEngine.get_opportunity_by_id [knownOpp] "ARB_MISSING" 7).sharpe_ratio = 0 ∧
    (ArbitrageEngine.get_opportunity_by_id [knownOpp] "ARB_MISSING" 7).max_drawdown = 0 ∧
    (ArbitrageEngine.get_opportunity_by_id [knownOpp] "ARB_MISSING" 7).correlation_risk = 0 :=
  unknown_id_returns_default_constructed [knownOpp] "ARB_MISSING" 7 (by decide)

/-- Claim C10: calculate_z_score is total and its division is guarded — it
returns 0 whenever the history has fewer than 2 entries or the computed
standard deviation is 0, and in every other case the returned value is the
guarded quotient with a positive (hence nonzero) divisor; this holds for
every choice of the external square-root function. -/
theorem calculate_z_score_total_and_division_guarded
    ( sq : ℚ → ℚ) (history : List ℚ) (current_value : ℚ) :
    (history.length < 2 →
      StatisticalMispricingDetector.calculate_z_score sq history current_value = 0) ∧
    ( sq (zscoreVariance history) = 0 →
      StatisticalMispricingDetector.calculate_z_score sq history current_value = 0) ∧
    (StatisticalMispricingDetector.calculate_z_score sq history current_value = 0 ∨
      ( sq (zscoreVariance history) > 0 ∧
        StatisticalMispricingDetector.calculate_z_score sq history current_value
          = (current_value - zscoreMean history) / sq (zscoreVariance history))) := by
  unfold StatisticalMispricingDetector.calculate_z_score
  by_cases h1 : history.length < 2
  · simp [h1]
  · simp only [h1, if_false]
    by_cases h2 : sq (zscoreVariance history) > 0
    · refine ⟨fun hc => hc.elim, fun hz => ?_, Or.inr ⟨h2, by simp [h2]⟩⟩
      rw [hz] at h2
      exact absurd h2 (lt_irrefl 0)
    · simp [h2]

/-- Witness for C10's theorem: the empty history returns 0 (the size guard),
instantiated with the identity as the square root. -/
theorem calculate_z_score_guard_witness :
    StatisticalMispricingDetector.calculate_z_score (fun x => x) [] 5 = 0 :=
  (calculate_z_score_total_and_division_guarded (fun x => x) [] 5).1 (by decide)

end SPE
